import Mathlib

/-!
Shallow embedding of the LegalZen client workflow (static/script.js):
file selection and validation, the analyze submission workflow, result
rendering, the clause accordion, and the question/answer guard.
JavaScript strings are modelled as Lean `String`, nullable strings as
`Option String` with an explicit truthiness test mirroring JS, and the
DOM side effects relevant to the specification (requests sent, errors
shown, progress steps, rendering) as an explicit effect list.
-/

namespace LegalZen

/-- JS truthiness of a nullable string: `null`/`undefined` and the empty
string are falsy, every other string is truthy. -/
def jsTruthy : Option String → Bool
  | none => false
  | some t => t != ""

/-- Embedding of JavaScript `String.prototype.trim`: strips leading and
trailing whitespace. -/
def jsTrim (s : String) : String :=
  (((s.toList.dropWhile Char.isWhitespace).reverse.dropWhile Char.isWhitespace).reverse).asString

/-- Embedding of JavaScript `String.prototype.split('.')` on the list of
characters of the string: splits at every dot, keeping empty pieces, and
returns the whole string as a single piece when no dot occurs. -/
def splitOnDot : List Char → List (List Char)
  | [] => [[]]
  | c :: cs =>
    if c = '.' then [] :: splitOnDot cs
    else
      match splitOnDot cs with
      | [] => [[c]]
      | p :: ps => (c :: p) :: ps

theorem splitOnDot_ne_nil (l : List Char) : splitOnDot l ≠ [] := by
  match l with
  | [] => simp [splitOnDot]
  | c :: cs =>
    simp only [splitOnDot]
    split
    · simp
    · split
      · simp
      · simp

/-- A browser `File` object, restricted to the attributes the script
reads: `name`, `type` (MIME) and `size` in bytes. -/
structure JsFile where
  name : String
  type : String
  size : Nat
deriving DecidableEq, Repr

/-- The MIME-type allowlist of `isValidFileType`. -/
def allowedTypes : List String :=
  ["application/pdf",
   "application/msword",
   "application/vnd.openxmlformats-officedocument.wordprocessingml.document",
   "text/plain"]

/-- The extension allowlist of `isValidFileType`. -/
def allowedExtensions : List String := ["pdf", "doc", "docx", "txt"]

/-- `file.name.split('.').pop().toLowerCase()`: the last piece of the
name split at dots, lowercased.  For a dotless name this is the whole
name. -/
def fileExtension (name : String) : String :=
  (((splitOnDot name.toList).getLastD []).map Char.toLower).asString

/-- Embedding of `isValidFileType`: MIME type in the type allowlist OR
extension in the extension allowlist. -/
def isValidFileType (f : JsFile) : Bool :=
  allowedTypes.contains f.type || allowedExtensions.contains (fileExtension f.name)

/-- One clause of the analyze response JSON
(`{title?, original, simplified, explanation?}`). -/
structure Clause where
  title : Option String
  original : String
  simplified : String
  explanation : Option String
deriving DecidableEq, Repr

/-- The analyze-endpoint response body
(`{summary?, clauses?, document_type?, session_key?, error?}`). -/
structure AnalyzeResponse where
  summary : Option String
  clauses : Option (List Clause)
  document_type : Option String
  session_key : Option String
  error : Option String
deriving DecidableEq, Repr

/-- The `/ask` response body (`{answer?, error?}`). -/
structure AskResponse where
  answer : Option String
  error : Option String
deriving DecidableEq, Repr

/-- One rendered accordion entry, as produced by `createAccordionItem`:
the shown title, the original and simplified texts, and the explanation
section when one is rendered. -/
structure AccordionEntry where
  title : String
  original : String
  simplified : String
  explanation : Option String
deriving DecidableEq, Repr

/-- One entry of the Q&A history (`addQuestionToHistory` /
`updateLatestAnswer`). -/
structure QAItem where
  question : String
  answer : String
  loading : Bool
deriving DecidableEq, Repr

/-- The rendered result surface: the three containers the script writes
into (`summaryContent`, `clauseAccordion`, `qaHistory`), with the
placeholder flag recording the "No specific clauses identified in this
document." message. -/
structure RenderedSurface where
  summary : Option String
  clauseEntries : List AccordionEntry
  clausePlaceholder : Bool
  qa : List QAItem
deriving DecidableEq, Repr

/-- The empty surface, before any result has been rendered. -/
def emptyRendered : RenderedSurface :=
  { summary := none, clauseEntries := [], clausePlaceholder := false, qa := [] }

/-- Embedding of `createAccordionItem`: the title falls back to
"Clause N" (1-based) when `clause.title` is JS-falsy, and the
explanation section is emitted only when `clause.explanation` is
JS-truthy. -/
def createAccordionItem (clause : Clause) (index : Nat) : AccordionEntry :=
  { title := if jsTruthy clause.title then clause.title.getD "" else "Clause " ++ toString (index + 1)
    original := clause.original
    simplified := clause.simplified
    explanation := if jsTruthy clause.explanation then clause.explanation else none }

/-- Embedding of `generateAccordion`: renders each clause with its
running index (the `forEach` index, offset by `start`). -/
def generateAccordion (start : Nat) : List Clause → List AccordionEntry
  | [] => []
  | clause :: rest => createAccordionItem clause start :: generateAccordion (start + 1) rest

/-- Embedding of `displayResults`: clears the summary, accordion and
Q&A containers, renders the summary when truthy, and renders the clause
accordion when `data.clauses` is a non-empty list, otherwise the
placeholder message. -/
def displayResults (_prior : RenderedSurface) (data : AnalyzeResponse) : RenderedSurface :=
  { summary := if jsTruthy data.summary then data.summary else none
    clauseEntries :=
      match data.clauses with
      | some clauses => if clauses.length > 0 then generateAccordion 0 clauses else []
      | none => []
    clausePlaceholder :=
      match data.clauses with
      | some clauses => if clauses.length > 0 then false else true
      | none => true
    qa := [] }

/-- The mutable workflow state of the page: the three module-level
variables (`currentDocument`, `currentSessionKey`, `isProcessing`)
together with the DOM state the handlers read back (button and
drop-target enablement, progress visibility, upload-area CSS states,
and the rendered result surface). -/
structure UIState where
  currentDocument : Option JsFile
  currentSessionKey : Option String
  isProcessing : Bool
  submitEnabled : Bool
  progressVisible : Bool
  dropTargetEnabled : Bool
  uploadErrorState : Bool
  uploadSuccessState : Bool
  selectedFileVisible : Bool
  dragOver : Bool
  rendered : RenderedSurface
deriving DecidableEq, Repr

/-- The page state on load: no document, no session key, not
processing, submission disabled, drop target interactive. -/
def initialState : UIState :=
  { currentDocument := none
    currentSessionKey := none
    isProcessing := false
    submitEnabled := false
    progressVisible := false
    dropTargetEnabled := true
    uploadErrorState := false
    uploadSuccessState := false
    selectedFileVisible := false
    dragOver := false
    rendered := emptyRendered }

/-- The observable side effects the handlers emit, in program order. -/
inductive Effect where
  | progressStep (percentage : Nat) (text : String)
  | analyzeRequest
  | resultRendered
  | askRequest (question : String) (sessionKey : String)
  | errorShown (message : String)
  | successShown (message : String)
deriving DecidableEq, Repr

/-- The invalid-file-type notification text. -/
def invalidTypeMessage : String :=
  "Please select a valid file type: PDF, DOC, DOCX, or TXT"

/-- Embedding of `enableSubmitButton`. -/
def enableSubmitButton (s : UIState) : UIState :=
  { s with submitEnabled := true }

/-- Embedding of `disableSubmitButton`. -/
def disableSubmitButton (s : UIState) : UIState :=
  { s with submitEnabled := false }

/-- Embedding of `displaySelectedFile`: shows the file chip, marks the
upload area successful and stores the file in `currentDocument`. -/
def displaySelectedFile (s : UIState) (file : JsFile) : UIState :=
  { s with selectedFileVisible := true
           uploadSuccessState := true
           currentDocument := some file }

/-- Embedding of `clearSelectedFile`: hides the file chip, clears the
success and error states, disables submission, and resets both
`currentDocument` and `currentSessionKey`. -/
def clearSelectedFile (s : UIState) : UIState :=
  { s with selectedFileVisible := false
           uploadSuccessState := false
           submitEnabled := false
           currentDocument := none
           currentSessionKey := none
           uploadErrorState := false }

/-- Embedding of `handleFileSelection` (the browse path): a valid file
is displayed and submission enabled; an invalid file shows the error
notification and clears the selection. -/
def handleFileSelection (s : UIState) (file : Option JsFile) : UIState × List Effect :=
  match file with
  | none => (s, [])
  | some f =>
    if isValidFileType f then
      (enableSubmitButton (displaySelectedFile s f), [])
    else
      (clearSelectedFile s, [Effect.errorShown invalidTypeMessage])

/-- Embedding of `handleFileDrop`: the drag-over highlight is removed
first; while processing the drop is ignored; with a non-empty file list
a valid first file is displayed and submission enabled, while an
invalid one only shows the error notification. -/
def handleFileDrop (s : UIState) (files : List JsFile) : UIState × List Effect :=
  let s0 := { s with dragOver := false }
  if s.isProcessing then (s0, [])
  else
    match files with
    | [] => (s0, [])
    | f :: _ =>
      if isValidFileType f then
        (enableSubmitButton (displaySelectedFile s0 f), [])
      else
        (s0, [Effect.errorShown invalidTypeMessage])

/-- The fixed simulated processing steps of `simulateProcessingSteps`,
each preceded by a 600ms delay. -/
def processingSteps : List (Nat × String) :=
  [(15, "Uploading document..."),
   (35, "Reading document content..."),
   (55, "Analyzing legal structure..."),
   (75, "Extracting key clauses..."),
   (90, "Generating explanations..."),
   (100, "Finalizing summary...")]

/-- The progress-step effects emitted by `simulateProcessingSteps`, in
order. -/
def stepEffects : List Effect :=
  processingSteps.map (fun p => Effect.progressStep p.1 p.2)

/-- Embedding of `showProgress`: shows the progress container, disables
the submit button, and disables pointer events on the drop target. -/
def showProgress (s : UIState) : UIState :=
  { s with progressVisible := true
           submitEnabled := false
           dropTargetEnabled := false }

/-- Embedding of `hideProgress` (the body of its 1000ms timeout): hides
the progress container, re-enables the submit button only when a
document is still selected, and re-enables the drop target
unconditionally. -/
def hideProgress (s : UIState) : UIState :=
  { s with progressVisible := false
           submitEnabled := if s.currentDocument.isSome then true else s.submitEnabled
           dropTargetEnabled := true }

/-- The state right after the submission guard passes: `isProcessing`
set and `showProgress()` applied. -/
def submitEntry (s : UIState) : UIState :=
  showProgress { s with isProcessing := true }

/-- Outcome of the analyze fetch, as seen by `handleFormSubmission`:
an ok response with parsed JSON, an ok response whose body fails to
parse, a non-ok response (with its optionally parsed body), or a
network error. -/
inductive FetchOutcome where
  | okJson (resp : AnalyzeResponse)
  | okBadJson (parseMessage : String)
  | httpErr (status : Nat) (body : Option AnalyzeResponse)
  | netErr (message : String)
deriving DecidableEq, Repr

/-- The `error.message` of the exception reaching the catch block, per
failure outcome: the parse error message for an ok body that fails to
parse, the server `error` field (or "Server error: N", or
"Unknown error" when the error body itself fails to parse) for a
non-ok response, and the transport message for a network error.
Unused on the success outcome. -/
def analyzeErrorMessage : FetchOutcome → String
  | FetchOutcome.okJson _ => ""
  | FetchOutcome.okBadJson m => m
  | FetchOutcome.httpErr status body =>
    match body with
    | none => "Unknown error"
    | some b => if jsTruthy b.error then b.error.getD "" else "Server error: " ++ toString status
  | FetchOutcome.netErr m => m

/-- Embedding of `handleFormSubmission`: guarded no-op when processing
or without a document; otherwise sets `isProcessing`, shows progress,
awaits the simulated steps, sends the request, stores a truthy session
key and renders the result on success, or shows the wrapped error and
marks the upload area on failure; the finally block clears
`isProcessing` and hides progress. -/
def handleFormSubmission (s : UIState) (outcome : FetchOutcome) : UIState × List Effect :=
  if s.isProcessing || s.currentDocument.isNone then
    (s, [])
  else
    let s1 := submitEntry s
    match outcome with
    | FetchOutcome.okJson resp =>
      let s2 := if jsTruthy resp.session_key then { s1 with currentSessionKey := resp.session_key } else s1
      let s3 := { s2 with rendered := displayResults s2.rendered resp }
      (hideProgress { s3 with isProcessing := false },
       stepEffects ++ [Effect.analyzeRequest, Effect.resultRendered])
    | failure =>
      let s2 := { s1 with uploadErrorState := true }
      (hideProgress { s2 with isProcessing := false },
       stepEffects ++ [Effect.analyzeRequest,
         Effect.errorShown ("Failed to process document: " ++ analyzeErrorMessage failure)])

/-- Embedding of `updateLatestAnswer`: rewrites the answer of the last
Q&A history entry (when one exists) and drops its loading marker. -/
def updateLatestAnswer (r : RenderedSurface) (answer : String) : RenderedSurface :=
  match r.qa.getLast? with
  | none => r
  | some item => { r with qa := r.qa.dropLast ++ [{ item with answer := answer, loading := false }] }

/-- Outcome of the `/ask` fetch, as seen by `handleQuestionSubmit`. -/
inductive AskOutcome where
  | okJson (resp : AskResponse)
  | okBadJson (parseMessage : String)
  | httpErr (body : Option AskResponse)
  | netErr (message : String)
deriving DecidableEq, Repr

/-- The `error.message` of the exception reaching the Q&A catch block,
per failure outcome. Unused on the success outcome. -/
def askErrorMessage : AskOutcome → String
  | AskOutcome.okJson _ => ""
  | AskOutcome.okBadJson m => m
  | AskOutcome.httpErr body =>
    match body with
    | none => "Unknown error"
    | some b => if jsTruthy b.error then b.error.getD "" else "Failed to get answer"
  | AskOutcome.netErr m => m

/-- Embedding of `handleQuestionSubmit`: with an empty trimmed question
or a falsy session key the handler returns early, showing the
"upload and analyze" error exactly when the session key is falsy;
otherwise it appends a pending history entry, sends the request, and
rewrites the latest answer with the server answer (JS stringifies a
missing `answer` field to "undefined") or an apologetic message. -/
def handleQuestionSubmit (s : UIState) (rawQuestion : String) (outcome : AskOutcome) :
    UIState × List Effect :=
  let question := jsTrim rawQuestion
  if question = "" || ! jsTruthy s.currentSessionKey then
    (s, if ! jsTruthy s.currentSessionKey then
          [Effect.errorShown "Please upload and analyze a document first"]
        else [])
  else
    let key := s.currentSessionKey.getD ""
    let pending : QAItem := { question := question, answer := "Thinking...", loading := true }
    let s1 := { s with rendered := { s.rendered with qa := s.rendered.qa ++ [pending] } }
    match outcome with
    | AskOutcome.okJson resp =>
      let answer := match resp.answer with
                    | some a => a
                    | none => "undefined"
      ({ s1 with rendered := updateLatestAnswer s1.rendered answer },
       [Effect.askRequest question key])
    | failure =>
      let apology := "Sorry, I couldn\x27t process your question: " ++ askErrorMessage failure
      ({ s1 with rendered := updateLatestAnswer s1.rendered apology },
       [Effect.askRequest question key])

/-- Outcome of the `/demo` fetch chain in `loadDemoDocument`. -/
inductive DemoOutcome where
  | ok (resp : AnalyzeResponse)
  | failed
deriving DecidableEq, Repr

/-- Embedding of `loadDemoDocument`: unconditionally sets
`currentSessionKey` to "demo_session", then renders the fetched demo
data (success notification) or shows the failure notification. -/
def loadDemoDocument (s : UIState) (outcome : DemoOutcome) : UIState × List Effect :=
  let s1 := { s with currentSessionKey := some "demo_session" }
  match outcome with
  | DemoOutcome.ok resp =>
    ({ s1 with rendered := displayResults s1.rendered resp },
     [Effect.successShown "Demo document loaded successfully!"])
  | DemoOutcome.failed =>
    (s1, [Effect.errorShown "Failed to load demo document"])

/-- Embedding of the `forEach` in `toggleAccordion` that closes every
accordion header other than the clicked one: of the open set, only the
clicked index survives. -/
def closeOthers (openSet : Finset ℕ) (i : ℕ) : Finset ℕ :=
  openSet.filter (· = i)

/-- Embedding of `toggleAccordion` on the set of open entry indices:
records whether the clicked entry was active, closes all others, then
closes the clicked entry if it was active and opens it otherwise. -/
def toggleAccordion (openSet : Finset ℕ) (i : ℕ) : Finset ℕ :=
  let isActive := i ∈ openSet
  let afterClose := closeOthers openSet i
  if isActive then afterClose.erase i else insert i afterClose

/-! Concrete inputs used by witnesses and counterexamples. -/

/-- A valid sample document. -/
def sampleFile : JsFile :=
  { name := "contract.pdf", type := "application/pdf", size := 1048576 }

/-- An invalid sample file (PNG image). -/
def pngFile : JsFile :=
  { name := "image.png", type := "image/png", size := 2048 }

/-- A dotless file name equal (up to case) to an allowed extension,
with a MIME type outside the allowlist. -/
def dotlessPdfFile : JsFile :=
  { name := "PDF", type := "image/png", size := 7 }

/-- The page state after selecting `sampleFile` via the browse path. -/
def readyState : UIState :=
  (handleFileSelection initialState (some sampleFile)).1

/-- Two sample clauses: one with a title and no explanation, one
without a title and with an explanation. -/
def sampleClauses : List Clause :=
  [{ title := some "Term", original := "O1", simplified := "S1", explanation := none },
   { title := none, original := "O2", simplified := "S2", explanation := some "E2" }]

/-- A sample analyze response carrying a summary, two clauses and a
session key. -/
def sampleAnalyzeResponse : AnalyzeResponse :=
  { summary := some "S"
    clauses := some sampleClauses
    document_type := none
    session_key := some "sk1"
    error := none }

/-- A previously rendered surface with non-trivial content in all three
containers. -/
def staleRendered : RenderedSurface :=
  { summary := some "old summary"
    clauseEntries := [{ title := "Old", original := "oo", simplified := "os", explanation := some "oe" }]
    clausePlaceholder := false
    qa := [{ question := "old q", answer := "old a", loading := false }] }

/-! Supporting lemmas. -/

theorem splitOnDot_no_dot : ∀ {l : List Char}, '.' ∉ l → splitOnDot l = [l]
  | [], _ => rfl
  | c :: cs, h => by
    have hc : ¬ c = '.' := fun e => h (e ▸ List.mem_cons_self c cs)
    have ih := splitOnDot_no_dot (l := cs) (fun m => h (List.mem_cons_of_mem c m))
    simp [splitOnDot, hc, ih]

theorem fileExtension_of_no_dot (name : String) (h : '.' ∉ name.toList) :
    fileExtension name = ((name.toList.map Char.toLower).asString) := by
  unfold fileExtension
  rw [splitOnDot_no_dot h]
  rfl

theorem generateAccordion_length (start : Nat) (cs : List Clause) :
    (generateAccordion start cs).length = cs.length := by
  induction cs generalizing start with
  | nil => rfl
  | cons c rest ih => simp [generateAccordion, ih]

theorem generateAccordion_get (start : Nat) (cs : List Clause) (i : Nat)
    (hi : i < cs.length) (he : i < (generateAccordion start cs).length) :
    (generateAccordion start cs).get ⟨i, he⟩ = createAccordionItem (cs.get ⟨i, hi⟩) (start + i) := by
  induction cs generalizing start i with
  | nil => exact absurd hi (Nat.not_lt_zero i)
  | cons c rest ih =>
    cases i with
    | zero => simp [generateAccordion]
    | succ n =>
      have hn : n < rest.length := Nat.lt_of_succ_lt_succ hi
      have hen : n < (generateAccordion (start + 1) rest).length := by
        rw [generateAccordion_length]; exact hn
      simp only [generateAccordion, List.get_cons_succ]
      rw [ih (start + 1) n hn hen]
      congr 1
      omega

theorem toggleAccordion_closed_form (openSet : Finset ℕ) (i : ℕ) :
    toggleAccordion openSet i = if i ∈ openSet then ∅ else {i} := by
  unfold toggleAccordion closeOthers
  by_cases h : i ∈ openSet
  · simp [h, Finset.filter_eq']
  · simp [h, Finset.filter_eq']

theorem toggleAccordion_card (openSet : Finset ℕ) (i : ℕ) :
    (toggleAccordion openSet i).card ≤ 1 := by
  rw [toggleAccordion_closed_form]
  split
  · simp
  · simp

theorem foldl_toggleAccordion_card :
    ∀ (ops : List ℕ) (openSet : Finset ℕ), openSet.card ≤ 1 →
      (ops.foldl toggleAccordion openSet).card ≤ 1
  | [], _, h => h
  | i :: rest, openSet, _ =>
    foldl_toggleAccordion_card rest (toggleAccordion openSet i) (toggleAccordion_card openSet i)

theorem generateAccordion_get? (start : Nat) (cs : List Clause) (i : Nat) :
    (generateAccordion start cs).get? i =
      (cs.get? i).map (fun c => createAccordionItem c (start + i)) := by
  induction cs generalizing start i with
  | nil => simp [generateAccordion]
  | cons c rest ih =>
    cases i with
    | zero => simp [generateAccordion]
    | succ n =>
      have harith : start + 1 + n = start + (n + 1) := by omega
      simp only [generateAccordion, List.get?_cons_succ]
      rw [ih (start + 1) n, harith]

theorem createAccordionItem_fields (c : Clause) (index : Nat) :
    (∀ t, c.title = some t → t ≠ "" → (createAccordionItem c index).title = t) ∧
    (c.title = none → (createAccordionItem c index).title = "Clause " ++ toString (index + 1)) ∧
    (createAccordionItem c index).original = c.original ∧
    (createAccordionItem c index).simplified = c.simplified ∧
    (∀ x, c.explanation = some x → x ≠ "" → (createAccordionItem c index).explanation = some x) ∧
    ((createAccordionItem c index).explanation.isSome = true →
      ∃ x, c.explanation = some x ∧ x ≠ "") ∧
    (c.explanation = none → (createAccordionItem c index).explanation = none) := by
  unfold createAccordionItem
  refine ⟨?_, ?_, rfl, rfl, ?_, ?_, ?_⟩
  · intro t ht hne; simp [ht, jsTruthy, hne]
  · intro ht; simp [ht, jsTruthy]
  · intro x hx hne; simp [hx, jsTruthy, hne]
  · intro h
    cases hce : c.explanation with
    | none => rw [hce] at h; simp [jsTruthy] at h
    | some x =>
      by_cases hx : x = ""
      · rw [hce, hx] at h; simp [jsTruthy] at h
      · exact ⟨x, rfl, hx⟩
  · intro h; simp [h, jsTruthy]

/-! Claim theorems. -/

/-- C1: submitting the analyze form is a no-op whenever the processing
flag is set or no document is selected: `handleFormSubmission` returns
the state unchanged and emits no effect (no request, no error, no
progress). -/
theorem c1_submit_guard_noop (s : UIState) (outcome : FetchOutcome)
    (h : s.isProcessing = true ∨ s.currentDocument = none) :
    handleFormSubmission s outcome = (s, []) := by
  unfold handleFormSubmission
  rcases h with h | h
  · simp [h]
  · simp [h]

/-- Witness for C1 at a concrete in-flight state. -/
theorem c1_submit_guard_noop_witness :
    handleFormSubmission { readyState with isProcessing := true } (FetchOutcome.netErr "down") =
      ({ readyState with isProcessing := true }, []) :=
  c1_submit_guard_noop { readyState with isProcessing := true } (FetchOutcome.netErr "down")
    (Or.inl rfl)

/-- C3: file validation is a permissive OR of the MIME-type allowlist
and the extension allowlist: `isValidFileType` accepts exactly the
files whose MIME type is in the allowed set or whose lowercased
extension is in the allowed set. -/
theorem c3_validation_or_of_allowlists (f : JsFile) :
    isValidFileType f = true ↔
      (f.type ∈ ["application/pdf", "application/msword",
        "application/vnd.openxmlformats-officedocument.wordprocessingml.document",
        "text/plain"] ∨
       fileExtension f.name ∈ ["pdf", "doc", "docx", "txt"]) := by
  simp [isValidFileType, allowedTypes, allowedExtensions, List.contains, List.elem_iff]

/-- C10: for a file name with no dot, the extension computed by
`isValidFileType` is the entire lowercased file name, so such a file is
accepted whenever its whole lowercased name is in the extension
allowlist, regardless of its MIME type. -/
theorem c10_dotless_name_as_extension (f : JsFile)
    (hnd : '.' ∉ f.name.toList)
    (hext : ((f.name.toList.map Char.toLower).asString) ∈ allowedExtensions) :
    fileExtension f.name = ((f.name.toList.map Char.toLower).asString) ∧
    isValidFileType f = true := by
  have hfe := fileExtension_of_no_dot f.name hnd
  refine ⟨hfe, ?_⟩
  unfold isValidFileType
  rw [hfe]
  have hc : allowedExtensions.contains ((f.name.toList.map Char.toLower).asString) = true := by
    simpa [List.contains, List.elem_iff] using hext
  rw [hc, Bool.or_true]

/-- Witness for C10: the dotless file named "PDF" with MIME type
image/png is accepted. -/
theorem c10_dotless_name_as_extension_witness :
    fileExtension dotlessPdfFile.name =
      ((dotlessPdfFile.name.toList.map Char.toLower).asString) ∧
    isValidFileType dotlessPdfFile = true :=
  c10_dotless_name_as_extension dotlessPdfFile (by decide) (by decide)

/-- Counterexample to C4: with a valid document already selected,
dropping an invalid-type file surfaces the error but does NOT reset to
the empty-selection state: the previous document stays stored and
submission stays enabled. -/
theorem c4_drop_invalid_keeps_selection_counterexample :
    isValidFileType pngFile = false ∧
    readyState.currentDocument = some sampleFile ∧
    readyState.submitEnabled = true ∧
    (handleFileDrop readyState [pngFile]).1.currentDocument = some sampleFile ∧
    (handleFileDrop readyState [pngFile]).1.submitEnabled = true ∧
    (handleFileDrop readyState [pngFile]).2 = [Effect.errorShown invalidTypeMessage] := by
  refine ⟨by decide, by decide, by decide, by decide, by decide, by decide⟩

/-- C4 amended: an invalid-type file offered via the browse path is
rejected with the error notification and a full reset to the
empty-selection state; via the drag-and-drop path (when not
processing) only the error notification is surfaced and the state is
otherwise unchanged, retaining any previous selection. -/
theorem c4_invalid_rejection_paths (s : UIState) (f : JsFile) (rest : List JsFile)
    (hinv : isValidFileType f = false) :
    (handleFileSelection s (some f) =
      (clearSelectedFile s, [Effect.errorShown invalidTypeMessage]) ∧
     (clearSelectedFile s).currentDocument = none ∧
     (clearSelectedFile s).submitEnabled = false ∧
     (clearSelectedFile s).currentSessionKey = none) ∧
    (s.isProcessing = false →
      handleFileDrop s (f :: rest) =
        ({ s with dragOver := false }, [Effect.errorShown invalidTypeMessage])) := by
  constructor
  · refine ⟨?_, rfl, rfl, rfl⟩
    simp [handleFileSelection, hinv]
  · intro hproc
    simp [handleFileDrop, hproc, hinv]

/-- Witness for C4 amended, at the concrete invalid PNG file and the
state with a document already selected. -/
theorem c4_invalid_rejection_paths_witness :
    (handleFileSelection readyState (some pngFile) =
      (clearSelectedFile readyState, [Effect.errorShown invalidTypeMessage]) ∧
     (clearSelectedFile readyState).currentDocument = none ∧
     (clearSelectedFile readyState).submitEnabled = false ∧
     (clearSelectedFile readyState).currentSessionKey = none) ∧
    handleFileDrop readyState [pngFile] =
      ({ readyState with dragOver := false }, [Effect.errorShown invalidTypeMessage]) :=
  ⟨(c4_invalid_rejection_paths readyState pngFile [] (by decide)).1,
   (c4_invalid_rejection_paths readyState pngFile [] (by decide)).2 (by decide)⟩

/-- Counterexample to C5: `loadDemoDocument` sets the session key to
"demo_session" while no document at all is selected, so the session key
can be present without a successfully analyzed selected document. -/
theorem c5_demo_key_without_document_counterexample :
    (loadDemoDocument initialState DemoOutcome.failed).1.currentSessionKey =
      some "demo_session" ∧
    (loadDemoDocument initialState DemoOutcome.failed).1.currentDocument = none := by
  refine ⟨by decide, by decide⟩

/-- C5 amended: clearing the selected file always resets the session
key to absent, and a successful analyze response carrying a non-empty
session key stores exactly that key; but demo loading sets the key
without any document, so key presence does not imply an analyzed
selected document. -/
theorem c5_session_key_lifecycle (s : UIState) (resp : AnalyzeResponse) (k : String)
    (hproc : s.isProcessing = false) (hdoc : s.currentDocument.isSome = true)
    (hkey : resp.session_key = some k) (hk : k ≠ "") :
    (∀ t : UIState, (clearSelectedFile t).currentSessionKey = none) ∧
    (handleFormSubmission s (FetchOutcome.okJson resp)).1.currentSessionKey = some k := by
  constructor
  · intro t; rfl
  · unfold handleFormSubmission
    rcases Option.isSome_iff_exists.mp hdoc with ⟨d, hd⟩
    have htruthy : jsTruthy (some k) = true := by
      simpa [jsTruthy] using hk
    simp [hproc, hd, hkey, htruthy, hideProgress, displayResults, submitEntry, showProgress]

/-- Witness for C5 amended at the ready state and the sample response
carrying session key "sk1". -/
theorem c5_session_key_lifecycle_witness :
    (∀ t : UIState, (clearSelectedFile t).currentSessionKey = none) ∧
    (handleFormSubmission readyState (FetchOutcome.okJson sampleAnalyzeResponse)).1.currentSessionKey =
      some "sk1" :=
  c5_session_key_lifecycle readyState sampleAnalyzeResponse "sk1"
    (by decide) (by decide) rfl (by decide)

/-- Counterexample to C9: in a state with no session key and an empty
question, submission aborts but is NOT silent: the distinct
"upload and analyze" error is shown, contradicting the claim that an
empty trimmed question always aborts silently with no error. -/
theorem c9_empty_question_no_key_counterexample :
    (jsTrim "" = "") ∧
    initialState.currentSessionKey = none ∧
    handleQuestionSubmit initialState "" (AskOutcome.netErr "down") =
      (initialState, [Effect.errorShown "Please upload and analyze a document first"]) := by
  refine ⟨rfl, rfl, by decide⟩

/-- C9 amended: with a falsy session key, question submission aborts
with the distinct "upload and analyze a document first" error and no
request, regardless of the question; with a truthy session key and an
empty trimmed question, it aborts silently with no request and no
error. -/
theorem c9_question_guard (s : UIState) (rawQuestion : String) (outcome : AskOutcome) :
    (jsTruthy s.currentSessionKey = false →
      handleQuestionSubmit s rawQuestion outcome =
        (s, [Effect.errorShown "Please upload and analyze a document first"])) ∧
    (jsTrim rawQuestion = "" → jsTruthy s.currentSessionKey = true →
      handleQuestionSubmit s rawQuestion outcome = (s, [])) := by
  constructor
  · intro hkey
    simp [handleQuestionSubmit, hkey]
  · intro hq hkey
    simp [handleQuestionSubmit, hq, hkey]

/-- Counterexample to C2: on a guard-passing submission the analyze
request is NOT sent before (or independently of) the simulated step
sequence completing: the whole effect trace places the request strictly
after the final 100% step, so the request waits for the steps. -/
theorem c2_request_after_steps_counterexample :
    (handleFormSubmission readyState (FetchOutcome.okJson sampleAnalyzeResponse)).2 =
      [Effect.progressStep 15 "Uploading document...",
       Effect.progressStep 35 "Reading document content...",
       Effect.progressStep 55 "Analyzing legal structure...",
       Effect.progressStep 75 "Extracting key clauses...",
       Effect.progressStep 90 "Generating explanations...",
       Effect.progressStep 100 "Finalizing summary...",
       Effect.analyzeRequest,
       Effect.resultRendered] ∧
    ¬ ((handleFormSubmission readyState (FetchOutcome.okJson sampleAnalyzeResponse)).2.indexOf
         Effect.analyzeRequest <
       (handleFormSubmission readyState (FetchOutcome.okJson sampleAnalyzeResponse)).2.indexOf
         (Effect.progressStep 100 "Finalizing summary...")) := by
  refine ⟨by decide, by decide⟩

/-- C2 amended: the simulated 600ms-cadence step sequence is awaited
first, so the POST request is sent only after the last (100%) step, and
the result is rendered after the request (hence after all steps). -/
theorem c2_steps_then_request_then_render (s : UIState) (resp : AnalyzeResponse)
    (hproc : s.isProcessing = false) (hdoc : s.currentDocument.isSome = true) :
    (handleFormSubmission s (FetchOutcome.okJson resp)).2 =
      stepEffects ++ [Effect.analyzeRequest, Effect.resultRendered] ∧
    ((handleFormSubmission s (FetchOutcome.okJson resp)).2.indexOf
        (Effect.progressStep 100 "Finalizing summary...") <
      (handleFormSubmission s (FetchOutcome.okJson resp)).2.indexOf Effect.analyzeRequest) ∧
    ((handleFormSubmission s (FetchOutcome.okJson resp)).2.indexOf Effect.analyzeRequest <
      (handleFormSubmission s (FetchOutcome.okJson resp)).2.indexOf Effect.resultRendered) := by
  rcases Option.isSome_iff_exists.mp hdoc with ⟨d, hd⟩
  have heff : (handleFormSubmission s (FetchOutcome.okJson resp)).2 =
      stepEffects ++ [Effect.analyzeRequest, Effect.resultRendered] := by
    unfold handleFormSubmission
    simp [hproc, hd]
  refine ⟨heff, ?_, ?_⟩ <;> rw [heff] <;> decide

/-- Witness for C2 amended at the ready state and the sample
response. -/
theorem c2_steps_then_request_then_render_witness :
    (handleFormSubmission readyState (FetchOutcome.okJson sampleAnalyzeResponse)).2 =
      stepEffects ++ [Effect.analyzeRequest, Effect.resultRendered] ∧
    ((handleFormSubmission readyState (FetchOutcome.okJson sampleAnalyzeResponse)).2.indexOf
        (Effect.progressStep 100 "Finalizing summary...") <
      (handleFormSubmission readyState (FetchOutcome.okJson sampleAnalyzeResponse)).2.indexOf
        Effect.analyzeRequest) ∧
    ((handleFormSubmission readyState (FetchOutcome.okJson sampleAnalyzeResponse)).2.indexOf
        Effect.analyzeRequest <
      (handleFormSubmission readyState (FetchOutcome.okJson sampleAnalyzeResponse)).2.indexOf
        Effect.resultRendered) :=
  c2_steps_then_request_then_render readyState sampleAnalyzeResponse (by decide) (by decide)

/-- C6: the processing flag is set (with submission and the drop target
disabled and progress shown) on entry to a guard-passing submission,
and regardless of the fetch outcome the final state has the flag
cleared, the progress indicator hidden, submission enabled exactly when
a document is still selected, and the drop target re-enabled. -/
theorem c6_processing_flag_and_exit (s : UIState) (outcome : FetchOutcome)
    (hproc : s.isProcessing = false) (hdoc : s.currentDocument.isSome = true) :
    ((submitEntry s).isProcessing = true ∧
     (submitEntry s).submitEnabled = false ∧
     (submitEntry s).progressVisible = true ∧
     (submitEntry s).dropTargetEnabled = false) ∧
    ((handleFormSubmission s outcome).1.isProcessing = false ∧
     (handleFormSubmission s outcome).1.progressVisible = false ∧
     (handleFormSubmission s outcome).1.submitEnabled =
       (handleFormSubmission s outcome).1.currentDocument.isSome ∧
     (handleFormSubmission s outcome).1.dropTargetEnabled = true) := by
  rcases Option.isSome_iff_exists.mp hdoc with ⟨d, hd⟩
  refine ⟨⟨rfl, rfl, rfl, rfl⟩, ?_⟩
  unfold handleFormSubmission
  cases outcome with
  | okJson resp =>
    cases ht : jsTruthy resp.session_key <;>
      simp [hproc, hd, ht, submitEntry, showProgress, hideProgress]
  | okBadJson m => simp [hproc, hd, submitEntry, showProgress, hideProgress]
  | httpErr status body => simp [hproc, hd, submitEntry, showProgress, hideProgress]
  | netErr m => simp [hproc, hd, submitEntry, showProgress, hideProgress]

/-- Witness for C6 at the ready state and a network-error outcome. -/
theorem c6_processing_flag_and_exit_witness :
    ((submitEntry readyState).isProcessing = true ∧
     (submitEntry readyState).submitEnabled = false ∧
     (submitEntry readyState).progressVisible = true ∧
     (submitEntry readyState).dropTargetEnabled = false) ∧
    ((handleFormSubmission readyState (FetchOutcome.netErr "down")).1.isProcessing = false ∧
     (handleFormSubmission readyState (FetchOutcome.netErr "down")).1.progressVisible = false ∧
     (handleFormSubmission readyState (FetchOutcome.netErr "down")).1.submitEnabled =
       (handleFormSubmission readyState (FetchOutcome.netErr "down")).1.currentDocument.isSome ∧
     (handleFormSubmission readyState (FetchOutcome.netErr "down")).1.dropTargetEnabled = true) :=
  c6_processing_flag_and_exit readyState (FetchOutcome.netErr "down") (by decide) (by decide)

/-- C7: rendering a result first clears the summary, clause and Q&A
containers (the output is independent of what was previously rendered
and the Q&A history is emptied); an absent or empty clause list renders
the placeholder and no accordion entries; a non-empty clause list
renders one entry per clause, with the supplied non-empty title or the
1-based "Clause N" fallback when no title is supplied, the original and
simplified texts, and an explanation section only when a (non-empty)
explanation is present. -/
theorem c7_display_results_rendering (prior : RenderedSurface) (data : AnalyzeResponse) :
    ((displayResults prior data).qa = [] ∧
     displayResults prior data = displayResults emptyRendered data) ∧
    ((data.clauses = none ∨ data.clauses = some []) →
      (displayResults prior data).clausePlaceholder = true ∧
      (displayResults prior data).clauseEntries = []) ∧
    (∀ clauses : List Clause, data.clauses = some clauses → clauses ≠ [] →
      (displayResults prior data).clausePlaceholder = false ∧
      (displayResults prior data).clauseEntries.length = clauses.length ∧
      (∀ i c, clauses.get? i = some c →
        ∃ e, (displayResults prior data).clauseEntries.get? i = some e ∧
          (∀ t, c.title = some t → t ≠ "" → e.title = t) ∧
          (c.title = none → e.title = "Clause " ++ toString (i + 1)) ∧
          e.original = c.original ∧
          e.simplified = c.simplified ∧
          (∀ x, c.explanation = some x → x ≠ "" → e.explanation = some x) ∧
          (e.explanation.isSome = true → ∃ x, c.explanation = some x ∧ x ≠ "") ∧
          (c.explanation = none → e.explanation = none))) := by
  refine ⟨⟨rfl, rfl⟩, ?_, ?_⟩
  · rintro (h | h) <;> simp [displayResults, h]
  · intro clauses hcl hne
    have hpos : clauses.length > 0 := List.length_pos.mpr hne
    have hent : (displayResults prior data).clauseEntries = generateAccordion 0 clauses := by
      simp [displayResults, hcl, hpos]
    refine ⟨by simp [displayResults, hcl, hpos], ?_, ?_⟩
    · rw [hent, generateAccordion_length]
    · intro i c hc
      refine ⟨createAccordionItem c i, ?_, ?_⟩
      · rw [hent, generateAccordion_get? 0 clauses i, hc]
        simp
      · have hf := createAccordionItem_fields c i
        exact hf

/-- Witness for C7 at a stale surface and the sample response with two
clauses. -/
theorem c7_display_results_rendering_witness :
    (displayResults staleRendered sampleAnalyzeResponse).qa = [] ∧
    (displayResults staleRendered sampleAnalyzeResponse).clausePlaceholder = false ∧
    (displayResults staleRendered sampleAnalyzeResponse).clauseEntries.length = 2 := by
  refine ⟨(c7_display_results_rendering staleRendered sampleAnalyzeResponse).1.1, ?_, ?_⟩
  · exact ((c7_display_results_rendering staleRendered sampleAnalyzeResponse).2.2
      sampleClauses rfl (by decide)).1
  · have hl := ((c7_display_results_rendering staleRendered sampleAnalyzeResponse).2.2
      sampleClauses rfl (by decide)).2.1
    rw [hl]
    decide

/-- C8: the clause accordion keeps at most one entry open after every
sequence of toggle operations from the initial all-closed state;
opening entry j after opening entry i (i distinct from j) leaves i
closed and j open; toggling the currently open entry closes it,
leaving no entry open. -/
theorem c8_accordion_at_most_one_open :
    (∀ ops : List ℕ, (ops.foldl toggleAccordion ∅).card ≤ 1) ∧
    (∀ (openSet : Finset ℕ) (i j : ℕ), i ∉ openSet → i ≠ j →
      i ∉ toggleAccordion (toggleAccordion openSet i) j ∧
      j ∈ toggleAccordion (toggleAccordion openSet i) j) ∧
    (∀ (openSet : Finset ℕ) (i : ℕ), i ∈ openSet → toggleAccordion openSet i = ∅) := by
  refine ⟨fun ops => foldl_toggleAccordion_card ops ∅ (by simp), ?_, ?_⟩
  · intro openSet i j hni hij
    rw [toggleAccordion_closed_form openSet i, if_neg hni]
    have hj : j ∉ ({i} : Finset ℕ) := by
      simp only [Finset.mem_singleton]
      exact fun h => hij h.symm
    rw [toggleAccordion_closed_form {i} j, if_neg hj]
    constructor
    · simp only [Finset.mem_singleton]
      exact hij
    · exact Finset.mem_singleton_self j
  · intro openSet i hi
    rw [toggleAccordion_closed_form, if_pos hi]

/-- Witness for C8: opening entry 0 then entry 1 from the all-closed
state leaves 0 closed and 1 open. -/
theorem c8_accordion_at_most_one_open_witness :
    0 ∉ toggleAccordion (toggleAccordion (∅ : Finset ℕ) 0) 1 ∧
    1 ∈ toggleAccordion (toggleAccordion (∅ : Finset ℕ) 0) 1 :=
  c8_accordion_at_most_one_open.2.1 ∅ 0 1 (by decide) (by decide)

/-- Witness for C9 amended: no key with a non-empty question gives the
distinct error; a truthy key with a whitespace question aborts
silently. -/
theorem c9_question_guard_witness :
    (handleQuestionSubmit initialState "What is the term?" (AskOutcome.netErr "down") =
      (initialState, [Effect.errorShown "Please upload and analyze a document first"])) ∧
    (handleQuestionSubmit { initialState with currentSessionKey := some "sk1" } "  "
        (AskOutcome.netErr "down") =
      ({ initialState with currentSessionKey := some "sk1" }, [])) :=
  ⟨(c9_question_guard initialState "What is the term?" (AskOutcome.netErr "down")).1 (by decide),
   (c9_question_guard { initialState with currentSessionKey := some "sk1" } "  "
      (AskOutcome.netErr "down")).2 (by decide) (by decide)⟩

end LegalZen
